import Mathlib

/-!
Verification of the Users-API server (src/server/index.js, the active first
variant, lines 1-283).  The Express handlers are shallowly embedded as pure
Lean functions over an explicit store state; Postgres queries are translated
to list operations on the users table, bcrypt and the JWT secret are
parameters, and HTTP replies are a status code plus a JSON body.
-/

namespace UsersAPI

/-- Account: one row of the users table (CREATE TABLE users, index.js lines
39-48): id SERIAL PRIMARY KEY, name, email UNIQUE, password (the bcrypt
hash), status VARCHAR DEFAULT active, last_login TIMESTAMP nullable.
Timestamps are modelled as Nat, a null timestamp as none. -/
structure Account where
  id : Nat
  name : String
  email : String
  password : String
  status : String
  lastLogin : Option Nat
  deriving DecidableEq, Repr

/-- Store: the users table together with the SERIAL sequence counter that
assigns the next primary key. -/
structure Store where
  users : List Account
  nextId : Nat
  deriving DecidableEq, Repr

/-- PublicUser: the projection returned by POST /login (index.js lines
153-161): id, name, email, status.  The type has no password field. -/
structure PublicUser where
  id : Nat
  name : String
  email : String
  status : String
  deriving DecidableEq, Repr

/-- UserRow: one element of the GET /users reply (index.js lines 187-192):
id, name, email, status, last_login (the TO_CHAR of a null timestamp is
null, so the field stays an Option). -/
structure UserRow where
  id : Nat
  name : String
  email : String
  status : String
  lastLogin : Option Nat
  deriving DecidableEq, Repr

/-- Token: a signed JWT as used by the server, carrying the payload field
id, the absolute expiry, and a signature modelled as the signing secret. -/
structure Token where
  uid : Nat
  exp : Nat
  sig : String
  deriving DecidableEq, Repr

/-- Body: the JSON body of a reply: a message object, an error object, the
login reply carrying the token and the public user projection, or the plain
array of user rows. -/
inductive Body where
  | msg (m : String)
  | err (e : String)
  | loginOk (token : Token) (user : PublicUser)
  | userList (rows : List UserRow)
  deriving DecidableEq, Repr

/-- Response: HTTP status code plus JSON body. -/
structure Response where
  status : Nat
  body : Body
  deriving DecidableEq, Repr

/-- jwtSign: jwt.sign with payload id and expiresIn of one hour (index.js
line 148); the expiry is the issue time plus 3600 seconds. -/
def jwtSign (secret : String) (uid : Nat) (now : Nat) : Token :=
  ⟨uid, now + 3600, secret⟩

/-- jwtVerify: jwt.verify (index.js line 58); yields the embedded id when
the signature matches the secret and the token is not yet expired, and
fails (none) on a bad signature or an expired token. -/
def jwtVerify (secret : String) (now : Nat) (t : Token) : Option Nat :=
  if t.sig = secret ∧ now < t.exp then some t.uid else none

/-- findById: SELECT * FROM users WHERE id = $1, first row (index.js
line 59). -/
def findById (s : Store) (uid : Nat) : Option Account :=
  s.users.find? (fun u => u.id == uid)

/-- findByEmail: SELECT * FROM users WHERE email = $1, first row (index.js
line 121). -/
def findByEmail (s : Store) (email : String) : Option Account :=
  s.users.find? (fun u => u.email == email)

/-- GuardOutcome: the outcome of the verifyUser middleware: one of the four
rejections, or the resolved account attached to the request. -/
inductive GuardOutcome where
  | unauthorized
  | invalidToken
  | userNotFound
  | accountBlocked
  | ok (u : Account)
  deriving DecidableEq, Repr

/-- verifyUser: the access-guard middleware (index.js lines 53-79).  No
token gives 401; a failing jwt.verify gives 401; an id absent from the
store gives 403; a blocked account gives 403; otherwise the freshly looked
up account is attached.  The store lookup happens on every call. -/
def verifyUser (secret : String) (now : Nat) (tok : Option Token) (s : Store) : GuardOutcome :=
  match tok with
  | none => .unauthorized
  | some t =>
    match jwtVerify secret now t with
    | none => .invalidToken
    | some uid =>
      match findById s uid with
      | none => .userNotFound
      | some u => if u.status = "blocked" then .accountBlocked else .ok u

/-- guardResponse: the HTTP reply sent for each guard rejection (index.js
lines 55, 62, 70, 77); none when the guard passes and the handler runs. -/
def guardResponse : GuardOutcome → Option Response
  | .unauthorized => some ⟨401, .err "Unauthorized"⟩
  | .invalidToken => some ⟨401, .err "Invalid token"⟩
  | .userNotFound => some ⟨403, .err "User not found"⟩
  | .accountBlocked => some ⟨403, .err "Your account has been blocked"⟩
  | .ok _ => none

/-- register: the POST /register handler (index.js lines 88-113).  A falsy
field (for a string body field: the empty string) gives 400; a duplicate
email hits the UNIQUE constraint (Postgres error 23505) and gives 400;
otherwise the password is hashed with bcrypt (the parameter bhash) and a
row is inserted with the defaults status active and last_login null. -/
def register (bhash : String → String) (name email password : String) (s : Store) :
    Response × Store :=
  if name = "" ∨ email = "" ∨ password = "" then
    (⟨400, .err "All fields required"⟩, s)
  else if s.users.any (fun u => u.email == email) then
    (⟨400, .err "Email already exists"⟩, s)
  else
    (⟨201, .msg "User registered successfully"⟩,
     ⟨s.users ++ [⟨s.nextId, name, email, bhash password, "active", none⟩], s.nextId + 1⟩)

/-- updateLastLogin: UPDATE users SET last_login = NOW() WHERE id = $1
(index.js line 145). -/
def updateLastLogin (s : Store) (uid : Nat) (now : Nat) : Store :=
  ⟨s.users.map (fun u => if u.id == uid then { u with lastLogin := some now } else u),
   s.nextId⟩

/-- login: the POST /login handler (index.js lines 115-166).  Lookup by
email, absent gives 400 invalid credentials; a blocked account gives 403
before the password is compared; a bcrypt mismatch (the parameter bcompare)
gives the same 400 invalid credentials; on success last_login is set to
now, a one-hour token is signed, and the public projection is returned. -/
def login (bcompare : String → String → Bool) (secret : String) (now : Nat)
    (email password : String) (s : Store) : Response × Store :=
  match findByEmail s email with
  | none => (⟨400, .err "Invalid credentials"⟩, s)
  | some u =>
    if u.status = "blocked" then
      (⟨403, .err "Your account has been blocked"⟩, s)
    else if !(bcompare password u.password) then
      (⟨400, .err "Invalid credentials"⟩, s)
    else
      (⟨200, .loginOk (jwtSign secret u.id now) ⟨u.id, u.name, u.email, u.status⟩⟩,
       updateLastLogin s u.id now)

/-- pgDescLe: the comparator realised by ORDER BY last_login DESC in
Postgres (index.js line 191).  Postgres sorts with NULL larger than every
non-null value, so descending order puts nulls first by default.  True
means the first argument may come no later than the second. -/
def pgDescLe (a b : Option Nat) : Bool :=
  match a, b with
  | none, _ => true
  | some _, none => false
  | some x, some y => decide (y ≤ x)

/-- rowLe: pgDescLe lifted to the rows of the GET /users reply. -/
def rowLe (a b : UserRow) : Bool :=
  pgDescLe a.lastLogin b.lastLogin

/-- orderByInsert: insertion step of the sort embedding ORDER BY. -/
def orderByInsert {α : Type} (le : α → α → Bool) (r : α) : List α → List α
  | [] => [r]
  | x :: xs => if le r x then r :: x :: xs else x :: orderByInsert le r xs

/-- orderBy: a sorting function over a boolean comparator, embedding the
SQL ORDER BY clause; SQL fixes only the comparator, not the algorithm. -/
def orderBy {α : Type} (le : α → α → Bool) : List α → List α
  | [] => []
  | x :: xs => orderByInsert le x (orderBy le xs)

/-- userRowOf: the SELECT list of GET /users (index.js lines 188-189): id,
name, email, status, last_login; the password column is not selected. -/
def userRowOf (u : Account) : UserRow :=
  ⟨u.id, u.name, u.email, u.status, u.lastLogin⟩

/-- listUsers: the GET /users handler (index.js lines 185-201): all rows,
ordered by last_login descending, returned as a plain array; the store is
not written. -/
def listUsers (s : Store) : Response × Store :=
  (⟨200, .userList (orderBy rowLe (s.users.map userRowOf))⟩, s)

/-- bulkBlock: the POST /block handler body (index.js lines 208-224) after
the guard resolved the actor.  If the target list contains the actor id the
whole request is rejected with 403 before the UPDATE runs; otherwise one
UPDATE sets status blocked for every row whose id is in the list. -/
def bulkBlock (actorId : Nat) (userIds : List Nat) (s : Store) : Response × Store :=
  if userIds.contains actorId then
    (⟨403, .err "You cannot block yourself"⟩, s)
  else
    (⟨200, .msg "Users blocked successfully!"⟩,
     ⟨s.users.map (fun u => if userIds.contains u.id then { u with status := "blocked" } else u),
      s.nextId⟩)

/-- bulkUnblock: the POST /unblock handler body (index.js lines 226-234).
The handler never reads req.user: there is no self-action check; one UPDATE
sets status active for every row whose id is in the list. -/
def bulkUnblock (userIds : List Nat) (s : Store) : Response × Store :=
  (⟨200, .msg "User unblocked successfully!"⟩,
   ⟨s.users.map (fun u => if userIds.contains u.id then { u with status := "active" } else u),
    s.nextId⟩)

/-- bulkDelete: the POST /delete handler body (index.js lines 236-247).
If the target list contains the actor id the request is rejected with 403
before the DELETE runs; otherwise one DELETE removes every row whose id is
in the list. -/
def bulkDelete (actorId : Nat) (userIds : List Nat) (s : Store) : Response × Store :=
  if userIds.contains actorId then
    (⟨403, .err "Cannot delete yourself"⟩, s)
  else
    (⟨200, .msg "User deleted successfully!"⟩,
     ⟨s.users.filter (fun u => !(userIds.contains u.id)), s.nextId⟩)

/-- blockHandler: POST /block on the raw body.  When the body has no
userIds field the expression userIds.includes inside the try block throws a
TypeError (includes called on undefined), which the catch turns into the
500 Server error reply before any query has run; with a list present the
handler body runs. -/
def blockHandler (actorId : Nat) (userIds : Option (List Nat)) (s : Store) : Response × Store :=
  match userIds with
  | none => (⟨500, .err "Server error"⟩, s)
  | some ids => bulkBlock actorId ids s

/-- deleteHandler: POST /delete on the raw body, with the same caught
TypeError on a missing userIds field as blockHandler. -/
def deleteHandler (actorId : Nat) (userIds : Option (List Nat)) (s : Store) : Response × Store :=
  match userIds with
  | none => (⟨500, .err "Server error"⟩, s)
  | some ids => bulkDelete actorId ids s

/-- specNullsLastLe: comparator written from the words of claim C5 only,
for comparison with the code: descending by last_login with the accounts
that never authenticated (null) sorting last. -/
def specNullsLastLe (a b : Option Nat) : Bool :=
  match a, b with
  | none, none => true
  | none, some _ => false
  | some _, none => true
  | some x, some y => decide (y ≤ x)

/-- Helper: find? over a list mapped through an id-preserving update equals
the map of the original find?. -/
theorem find?_map_id_preserving (g : Account → Account) (hg : ∀ u, (g u).id = u.id)
    (l : List Account) (uid : Nat) :
    (l.map g).find? (fun u => u.id == uid) = (l.find? (fun u => u.id == uid)).map g := by
  have hp : ((fun u : Account => u.id == uid) ∘ g) = (fun u : Account => u.id == uid) := by
    funext u
    simp [Function.comp, hg]
  rw [List.find?_map, hp]

/-- Helper: find? over an append whose first part has no match. -/
theorem find?_append_of_none {α : Type} (p : α → Bool) (l1 l2 : List α)
    (h : ∀ u ∈ l1, p u = false) :
    (l1 ++ l2).find? p = l2.find? p := by
  rw [List.find?_append]
  have h1 : l1.find? p = none := List.find?_eq_none.mpr (by intro x hx; simp [h x hx])
  simp [h1]

/-- Helper: a list is pointwise related to its own map. -/
theorem forall₂_self_map {α : Type} (R : α → α → Prop) (g : α → α) (l : List α)
    (h : ∀ a, R a (g a)) : List.Forall₂ R l (l.map g) := by
  induction l with
  | nil => exact List.Forall₂.nil
  | cons x xs ih => exact List.Forall₂.cons (h x) ih

/-- Helper: mapping a function that fixes every member is the identity. -/
theorem map_eq_self_of_fixed {α : Type} (g : α → α) (l : List α)
    (h : ∀ a ∈ l, g a = a) : l.map g = l :=
  (List.map_congr_left h).trans (List.map_id l)

/-- Helper: inserting preserves the multiset of elements. -/
theorem orderByInsert_perm {α : Type} (le : α → α → Bool) (r : α) (l : List α) :
    List.Perm (orderByInsert le r l) (r :: l) := by
  induction l with
  | nil => exact List.Perm.refl [r]
  | cons x xs ih =>
    cases h : le r x with
    | true => simp [orderByInsert, h]
    | false =>
      simp only [orderByInsert, h, Bool.false_eq_true, if_false]
      exact (List.Perm.cons x ih).trans (List.Perm.swap r x xs)

/-- Helper: orderBy returns a permutation of its input. -/
theorem orderBy_perm {α : Type} (le : α → α → Bool) (l : List α) :
    List.Perm (orderBy le l) l := by
  induction l with
  | nil => exact List.Perm.refl []
  | cons x xs ih =>
    simp only [orderBy]
    exact (orderByInsert_perm le x (orderBy le xs)).trans (List.Perm.cons x ih)

/-- Helper: membership in an insertion. -/
theorem mem_orderByInsert {α : Type} (le : α → α → Bool) (r a : α) (l : List α) :
    a ∈ orderByInsert le r l ↔ a = r ∨ a ∈ l :=
  ((orderByInsert_perm le r l).mem_iff).trans List.mem_cons

/-- Helper: insertion into a sorted list stays sorted, for a transitive and
total comparator. -/
theorem orderByInsert_pairwise {α : Type} (le : α → α → Bool)
    (htrans : ∀ a b c, le a b = true → le b c = true → le a c = true)
    (htotal : ∀ a b, le a b = true ∨ le b a = true)
    (r : α) (l : List α) (hl : List.Pairwise (fun a b => le a b = true) l) :
    List.Pairwise (fun a b => le a b = true) (orderByInsert le r l) := by
  induction l with
  | nil => simp [orderByInsert]
  | cons x xs ih =>
    rcases List.pairwise_cons.mp hl with ⟨hx, hxs⟩
    cases h : le r x with
    | true =>
      simp only [orderByInsert, h, if_true]
      refine List.pairwise_cons.mpr ⟨?_, hl⟩
      intro y hy
      rcases List.mem_cons.mp hy with rfl | hy2
      · exact h
      · exact htrans r x y h (hx y hy2)
    | false =>
      simp only [orderByInsert, h, Bool.false_eq_true, if_false]
      refine List.pairwise_cons.mpr ⟨?_, ih hxs⟩
      intro y hy
      rcases (mem_orderByInsert le r y xs).mp hy with rfl | hy2
      · exact (htotal y x).resolve_left (by simp [h])
      · exact hx y hy2

/-- Helper: orderBy sorts, for a transitive and total comparator. -/
theorem orderBy_pairwise {α : Type} (le : α → α → Bool)
    (htrans : ∀ a b c, le a b = true → le b c = true → le a c = true)
    (htotal : ∀ a b, le a b = true ∨ le b a = true)
    (l : List α) :
    List.Pairwise (fun a b => le a b = true) (orderBy le l) := by
  induction l with
  | nil => simp [orderBy]
  | cons x xs ih =>
    simp only [orderBy]
    exact orderByInsert_pairwise le htrans htotal x (orderBy le xs) ih

/-- Helper: the Postgres descending null-first comparator is transitive. -/
theorem pgDescLe_trans (a b c : Option Nat)
    (h1 : pgDescLe a b = true) (h2 : pgDescLe b c = true) : pgDescLe a c = true := by
  cases a <;> cases b <;> cases c <;> simp_all [pgDescLe]
  all_goals omega

/-- Helper: the Postgres descending null-first comparator is total. -/
theorem pgDescLe_total (a b : Option Nat) : pgDescLe a b = true ∨ pgDescLe b a = true := by
  cases a <;> cases b <;> simp [pgDescLe]
  all_goals omega

/-- C1: with the actor id among the targets, POST /block fails with the 403
self-block error and the store is returned exactly as it was: no account in
the batch, legitimate targets included, changes status. -/
theorem bulkBlock_self_target_rejects_batch
    (s : Store) (actorId : Nat) (userIds : List Nat)
    (hself : actorId ∈ userIds) :
    bulkBlock actorId userIds s = (⟨403, .err "You cannot block yourself"⟩, s) := by
  simp [bulkBlock, hself]

/-- Witness for C1: the actor with id 1 tries to block the set containing
itself and the legitimate target 2; the batch is rejected and the store,
target 2 included, is unchanged. -/
theorem bulkBlock_self_target_rejects_batch_witness :
    ((1 : Nat) ∈ [1, 2]) ∧
    bulkBlock 1 [1, 2]
        ⟨[⟨1, "a", "ae", "h", "active", none⟩, ⟨2, "b", "be", "h", "active", none⟩], 3⟩
      = (⟨403, .err "You cannot block yourself"⟩,
         ⟨[⟨1, "a", "ae", "h", "active", none⟩, ⟨2, "b", "be", "h", "active", none⟩], 3⟩) :=
  ⟨by decide, bulkBlock_self_target_rejects_batch _ 1 [1, 2] (by decide)⟩

/-- C10: a POST /block or POST /delete request whose body lacks the userIds
field is answered 500 Server error (the caught TypeError path), not a 400
validation error, and the store is unchanged. -/
theorem missing_userIds_server_error_no_mutation (s : Store) (actorId : Nat) :
    blockHandler actorId none s = (⟨500, .err "Server error"⟩, s) ∧
    deleteHandler actorId none s = (⟨500, .err "Server error"⟩, s) :=
  ⟨rfl, rfl⟩

/-- C9: with the actor outside the target set, POST /block answers the one
fixed success message, keeps the id counter, and rewrites the table
pointwise: a targeted row changes exactly its status to blocked while id,
name, email, password and last_login stay; an untargeted row is untouched;
ids absent from the table have no effect and raise no error. -/
theorem bulkBlock_targets_blocked_frame
    (s : Store) (actorId : Nat) (userIds : List Nat)
    (hself : actorId ∉ userIds) :
    (bulkBlock actorId userIds s).1 = ⟨200, .msg "Users blocked successfully!"⟩ ∧
    (bulkBlock actorId userIds s).2.nextId = s.nextId ∧
    (bulkBlock actorId userIds s).2.users.length = s.users.length ∧
    List.Forall₂ (fun u v : Account =>
        v.id = u.id ∧ v.name = u.name ∧ v.email = u.email ∧
        v.password = u.password ∧ v.lastLogin = u.lastLogin ∧
        v.status = (if u.id ∈ userIds then "blocked" else u.status))
      s.users (bulkBlock actorId userIds s).2.users := by
  have husers : (bulkBlock actorId userIds s).2.users
      = s.users.map
          (fun u => if userIds.contains u.id then { u with status := "blocked" } else u) := by
    simp [bulkBlock, hself]
  have hmain : List.Forall₂ (fun u v : Account =>
      v.id = u.id ∧ v.name = u.name ∧ v.email = u.email ∧
      v.password = u.password ∧ v.lastLogin = u.lastLogin ∧
      v.status = (if u.id ∈ userIds then "blocked" else u.status))
      s.users (s.users.map
        (fun u => if userIds.contains u.id then { u with status := "blocked" } else u)) := by
    refine forall₂_self_map _ _ s.users ?_
    intro a
    by_cases hc : a.id ∈ userIds <;> simp [hc]
  refine ⟨by simp [bulkBlock, hself], by simp [bulkBlock, hself], ?_, ?_⟩
  · rw [husers]
    simp
  · rw [husers]
    exact hmain

/-- Witness for C9: actor 3 blocks targets 1 and 99 (99 absent from the
table); row 1 turns blocked, row 2 is untouched. -/
theorem bulkBlock_targets_blocked_frame_witness :
    ((3 : Nat) ∉ [1, 99]) ∧
    (bulkBlock 3 [1, 99]
        ⟨[⟨1, "a", "ae", "h", "active", some 4⟩, ⟨2, "b", "be", "h", "active", none⟩], 3⟩).1
      = ⟨200, .msg "Users blocked successfully!"⟩ ∧
    (bulkBlock 3 [1, 99]
        ⟨[⟨1, "a", "ae", "h", "active", some 4⟩, ⟨2, "b", "be", "h", "active", none⟩], 3⟩).2.users.length
      = 2 :=
  ⟨by decide,
   (bulkBlock_targets_blocked_frame
      ⟨[⟨1, "a", "ae", "h", "active", some 4⟩, ⟨2, "b", "be", "h", "active", none⟩], 3⟩
      3 [1, 99] (by decide)).1,
   (bulkBlock_targets_blocked_frame
      ⟨[⟨1, "a", "ae", "h", "active", some 4⟩, ⟨2, "b", "be", "h", "active", none⟩], 3⟩
      3 [1, 99] (by decide)).2.2.1⟩

/-- C8: POST /unblock has no self-action guard: for every target list, the
actor id included or not, it answers the fixed success message; it sets
status active pointwise for targeted rows and ignores unknown ids; it is
idempotent, and when every targeted row is already active it is a no-op on
the store. -/
theorem setStatus_map_idem (st : String) (userIds : List Nat) (l : List Account) :
    ((l.map (fun u => if userIds.contains u.id then { u with status := st } else u)).map
        (fun u => if userIds.contains u.id then { u with status := st } else u))
      = l.map (fun u => if userIds.contains u.id then { u with status := st } else u) := by
  rw [List.map_map]
  refine List.map_congr_left ?_
  intro a _
  by_cases hc : a.id ∈ userIds <;> simp [Function.comp, hc]

theorem bulkUnblock_no_self_guard_and_idempotent (s : Store) (userIds : List Nat) :
    (bulkUnblock userIds s).1 = ⟨200, .msg "User unblocked successfully!"⟩ ∧
    List.Forall₂ (fun u v : Account =>
        v.id = u.id ∧ v.name = u.name ∧ v.email = u.email ∧
        v.password = u.password ∧ v.lastLogin = u.lastLogin ∧
        v.status = (if u.id ∈ userIds then "active" else u.status))
      s.users (bulkUnblock userIds s).2.users ∧
    bulkUnblock userIds (bulkUnblock userIds s).2 = bulkUnblock userIds s ∧
    ((∀ u ∈ s.users, u.id ∈ userIds → u.status = "active") →
      (bulkUnblock userIds s).2 = s) := by
  refine ⟨rfl, ?_, ?_, ?_⟩
  · have hmain : List.Forall₂ (fun u v : Account =>
        v.id = u.id ∧ v.name = u.name ∧ v.email = u.email ∧
        v.password = u.password ∧ v.lastLogin = u.lastLogin ∧
        v.status = (if u.id ∈ userIds then "active" else u.status))
        s.users (s.users.map
          (fun u => if userIds.contains u.id then { u with status := "active" } else u)) := by
      refine forall₂_self_map _ _ s.users ?_
      intro a
      by_cases hc : a.id ∈ userIds <;> simp [hc]
    exact hmain
  · show bulkUnblock userIds (bulkUnblock userIds s).2 = bulkUnblock userIds s
    simp only [bulkUnblock]
    rw [setStatus_map_idem]
  · intro h
    obtain ⟨l, n⟩ := s
    simp only [bulkUnblock]
    congr 1
    refine map_eq_self_of_fixed _ l ?_
    intro a ha
    by_cases hc : a.id ∈ userIds
    · have hs := h a ha hc
      obtain ⟨i, nm, em, pw, st, ll⟩ := a
      simp_all
    · simp [hc]

/-- Witness for C8: the actor with id 1 unblocks itself together with the
unknown id 99; the call succeeds, is idempotent, and on the already-active
store it is a no-op. -/
theorem bulkUnblock_no_self_guard_and_idempotent_witness :
    (bulkUnblock [1, 99] ⟨[⟨1, "a", "ae", "h", "active", none⟩], 2⟩).1
      = ⟨200, .msg "User unblocked successfully!"⟩ ∧
    bulkUnblock [1, 99] (bulkUnblock [1, 99] ⟨[⟨1, "a", "ae", "h", "active", none⟩], 2⟩).2
      = bulkUnblock [1, 99] ⟨[⟨1, "a", "ae", "h", "active", none⟩], 2⟩ ∧
    (bulkUnblock [1, 99] ⟨[⟨1, "a", "ae", "h", "active", none⟩], 2⟩).2
      = ⟨[⟨1, "a", "ae", "h", "active", none⟩], 2⟩ :=
  ⟨(bulkUnblock_no_self_guard_and_idempotent ⟨[⟨1, "a", "ae", "h", "active", none⟩], 2⟩ [1, 99]).1,
   (bulkUnblock_no_self_guard_and_idempotent ⟨[⟨1, "a", "ae", "h", "active", none⟩], 2⟩ [1, 99]).2.2.1,
   (bulkUnblock_no_self_guard_and_idempotent ⟨[⟨1, "a", "ae", "h", "active", none⟩], 2⟩ [1, 99]).2.2.2
     (by decide)⟩

/-- C3: a blocked account fails login with the 403 blocked reply before the
password comparison runs: the outcome is the same for every bcrypt compare
oracle and every submitted password, hence independent of password
correctness, and the reply differs from the invalid-credentials reply. -/
theorem login_blocked_precedes_password
    (bcompare : String → String → Bool) (secret : String) (now : Nat)
    (email password : String) (s : Store) (u : Account)
    (hfind : findByEmail s email = some u) (hb : u.status = "blocked") :
    login bcompare secret now email password s
      = (⟨403, .err "Your account has been blocked"⟩, s) ∧
    (⟨403, .err "Your account has been blocked"⟩ : Response)
      ≠ ⟨400, .err "Invalid credentials"⟩ := by
  refine ⟨?_, by decide⟩
  simp [login, hfind, hb]

/-- Witness for C3: a blocked account with a compare oracle that accepts
every password, modelling a correct password, is still rejected 403. -/
theorem login_blocked_precedes_password_witness :
    login (fun _ _ => true) "k" 0 "be" "pw" ⟨[⟨1, "b", "be", "h", "blocked", none⟩], 2⟩
      = (⟨403, .err "Your account has been blocked"⟩,
         ⟨[⟨1, "b", "be", "h", "blocked", none⟩], 2⟩) :=
  (login_blocked_precedes_password (fun _ _ => true) "k" 0 "be" "pw"
      ⟨[⟨1, "b", "be", "h", "blocked", none⟩], 2⟩ ⟨1, "b", "be", "h", "blocked", none⟩
      (by decide) rfl).1

/-- C7: login with an unknown email and login with a known, unblocked email
but a wrong password produce the very same 400 invalid-credentials reply
with the store untouched, so the two failure causes are indistinguishable
to the caller and the reply does not leak whether the email exists. -/
theorem login_failure_indistinguishable
    (bcompare : String → String → Bool) (secret : String) (now : Nat)
    (s : Store) (email1 password1 email2 password2 : String) (u : Account)
    (h1 : findByEmail s email1 = none)
    (h2 : findByEmail s email2 = some u)
    (hnb : u.status ≠ "blocked")
    (hpw : bcompare password2 u.password = false) :
    login bcompare secret now email1 password1 s = (⟨400, .err "Invalid credentials"⟩, s) ∧
    login bcompare secret now email2 password2 s = (⟨400, .err "Invalid credentials"⟩, s) ∧
    login bcompare secret now email1 password1 s
      = login bcompare secret now email2 password2 s := by
  have ha : login bcompare secret now email1 password1 s
      = (⟨400, .err "Invalid credentials"⟩, s) := by
    simp [login, h1]
  have hb2 : login bcompare secret now email2 password2 s
      = (⟨400, .err "Invalid credentials"⟩, s) := by
    simp [login, h2, hnb, hpw]
  exact ⟨ha, hb2, ha.trans hb2.symm⟩

/-- Witness for C7: the store knows only the email be; a login for the
absent email nope and a login for be with a rejected password draw the
identical reply. -/
theorem login_failure_indistinguishable_witness :
    login (fun _ _ => false) "k" 0 "nope" "p1" ⟨[⟨1, "b", "be", "h", "active", none⟩], 2⟩
      = login (fun _ _ => false) "k" 0 "be" "p2" ⟨[⟨1, "b", "be", "h", "active", none⟩], 2⟩ :=
  (login_failure_indistinguishable (fun _ _ => false) "k" 0
      ⟨[⟨1, "b", "be", "h", "active", none⟩], 2⟩ "nope" "p1" "be" "p2"
      ⟨1, "b", "be", "h", "active", none⟩
      (by decide) (by decide) (by decide) rfl).2.2

/-- C5 as written is refuted: on a store holding an account that never
authenticated and one with a timestamp, GET /users places the null row
first, so the returned order is not descending-with-nulls-last. -/
theorem listUsers_nulls_last_refuted :
    (listUsers ⟨[⟨1, "a", "ae", "h", "active", none⟩,
                 ⟨2, "b", "be", "h", "active", some 5⟩], 3⟩).1.body
      = .userList [⟨1, "a", "ae", "active", none⟩, ⟨2, "b", "be", "active", some 5⟩] ∧
    ¬ List.Pairwise (fun a b : UserRow => specNullsLastLe a.lastLogin b.lastLogin = true)
        [⟨1, "a", "ae", "active", none⟩, ⟨2, "b", "be", "active", some 5⟩] := by
  exact ⟨by decide, by decide⟩

/-- C5 amended: GET /users leaves the store untouched and returns status
200 with all rows (a permutation of the table projection) ordered by
last_login descending with never-authenticated (null) rows sorting first,
the Postgres default null placement for ORDER BY DESC. -/
theorem listUsers_sorted_desc_nulls_first (s : Store) :
    (listUsers s).2 = s ∧
    (listUsers s).1.status = 200 ∧
    ∃ rows, (listUsers s).1.body = .userList rows ∧
      List.Perm rows (s.users.map userRowOf) ∧
      List.Pairwise (fun a b : UserRow => rowLe a b = true) rows :=
  ⟨rfl, rfl, orderBy rowLe (s.users.map userRowOf), rfl,
   orderBy_perm rowLe (s.users.map userRowOf),
   orderBy_pairwise rowLe
     (fun a b c h1 h2 => pgDescLe_trans a.lastLogin b.lastLogin c.lastLogin h1 h2)
     (fun a b => pgDescLe_total a.lastLogin b.lastLogin)
     (s.users.map userRowOf)⟩

/-- Helper: the successful branch of register, spelled out. -/
theorem register_success (bhash : String → String) (name email password : String) (s : Store)
    (hn : name ≠ "") (he : email ≠ "") (hp : password ≠ "")
    (hany : s.users.any (fun u => u.email == email) = false) :
    register bhash name email password s
      = (⟨201, .msg "User registered successfully"⟩,
         ⟨s.users ++ [⟨s.nextId, name, email, bhash password, "active", none⟩],
          s.nextId + 1⟩) := by
  unfold register
  rw [if_neg (by simp [hn, he, hp])]
  rw [if_neg (by simp [hany])]

/-- C6: with the actor outside the target set, POST /delete succeeds; every
surviving row has an id outside the set while every untargeted row
survives; a following GET /users lists no targeted id; a following
register with the email of a deleted account succeeds (the uniqueness
constraint is freed by the hard delete), the fresh account carrying the id
counter value, which no targeted existing row ever had. -/
theorem bulkDelete_removes_and_frees_email
    (s : Store) (actorId : Nat) (userIds : List Nat)
    (bhash : String → String) (name email password : String)
    (hself : actorId ∉ userIds)
    (hids : ∀ u ∈ s.users, u.id < s.nextId)
    (hn : name ≠ "") (he : email ≠ "") (hp : password ≠ "")
    (hmail : ∀ u ∈ s.users, u.email = email → u.id ∈ userIds) :
    (bulkDelete actorId userIds s).1 = ⟨200, .msg "User deleted successfully!"⟩ ∧
    (∀ u ∈ (bulkDelete actorId userIds s).2.users, u.id ∉ userIds) ∧
    (∀ u ∈ s.users, u.id ∉ userIds → u ∈ (bulkDelete actorId userIds s).2.users) ∧
    (∀ rows, (listUsers (bulkDelete actorId userIds s).2).1.body = .userList rows →
      ∀ r ∈ rows, r.id ∉ userIds) ∧
    (register bhash name email password (bulkDelete actorId userIds s).2).1
      = ⟨201, .msg "User registered successfully"⟩ ∧
    (⟨s.nextId, name, email, bhash password, "active", none⟩ : Account)
      ∈ (register bhash name email password (bulkDelete actorId userIds s).2).2.users ∧
    (∀ u ∈ s.users, u.id ∈ userIds → u.id ≠ s.nextId) := by
  have husers : (bulkDelete actorId userIds s).2.users
      = s.users.filter (fun u => !(userIds.contains u.id)) := by
    simp [bulkDelete, hself]
  have hnext : (bulkDelete actorId userIds s).2.nextId = s.nextId := by
    simp [bulkDelete, hself]
  have hkept : ∀ u ∈ (bulkDelete actorId userIds s).2.users, u.id ∉ userIds := by
    intro u hu
    rw [husers] at hu
    rcases List.mem_filter.mp hu with ⟨_, hf⟩
    simpa using hf
  have hany : ((bulkDelete actorId userIds s).2.users.any (fun u => u.email == email)) = false := by
    rw [List.any_eq_false]
    intro u hu
    have hni : u.id ∉ userIds := hkept u hu
    have hus : u ∈ s.users := by
      rw [husers] at hu
      exact (List.mem_filter.mp hu).1
    intro heq
    exact hni (hmail u hus (by simpa using heq))
  have hregeq := register_success bhash name email password
    (bulkDelete actorId userIds s).2 hn he hp hany
  rw [hnext] at hregeq
  refine ⟨by simp [bulkDelete, hself], hkept, ?_, ?_, ?_, ?_, ?_⟩
  · intro u hu hnin
    rw [husers]
    exact List.mem_filter.mpr ⟨hu, by simpa using hnin⟩
  · intro rows hrows r hr
    have hbody : (listUsers (bulkDelete actorId userIds s).2).1.body
        = .userList (orderBy rowLe ((bulkDelete actorId userIds s).2.users.map userRowOf)) := rfl
    rw [hbody] at hrows
    have hrows2 : rows
        = orderBy rowLe ((bulkDelete actorId userIds s).2.users.map userRowOf) :=
      ((Body.userList.injEq _ _).mp hrows).symm
    subst hrows2
    have hr2 : r ∈ (bulkDelete actorId userIds s).2.users.map userRowOf :=
      (orderBy_perm rowLe _).mem_iff.mp hr
    rcases List.mem_map.mp hr2 with ⟨u, hu, rfl⟩
    simpa [userRowOf] using hkept u hu
  · rw [hregeq]
  · rw [hregeq]
    exact List.mem_append_right _ (List.mem_singleton.mpr rfl)
  · intro u hu _
    exact Nat.ne_of_lt (hids u hu)

/-- Witness for C6: actor 2 deletes account 1 (email ae); the delete
succeeds and a later registration reusing the email ae succeeds, with the
new account holding id 3, not the deleted id 1. -/
theorem bulkDelete_removes_and_frees_email_witness :
    (bulkDelete 2 [1]
        ⟨[⟨1, "a", "ae", "h", "active", none⟩, ⟨2, "b", "be", "h", "active", some 3⟩], 3⟩).1
      = ⟨200, .msg "User deleted successfully!"⟩ ∧
    (register (fun p => p) "c" "ae" "pw"
        (bulkDelete 2 [1]
          ⟨[⟨1, "a", "ae", "h", "active", none⟩, ⟨2, "b", "be", "h", "active", some 3⟩], 3⟩).2).1
      = ⟨201, .msg "User registered successfully"⟩ ∧
    (⟨3, "c", "ae", "pw", "active", none⟩ : Account)
      ∈ (register (fun p => p) "c" "ae" "pw"
          (bulkDelete 2 [1]
            ⟨[⟨1, "a", "ae", "h", "active", none⟩, ⟨2, "b", "be", "h", "active", some 3⟩], 3⟩).2).2.users :=
  ⟨(bulkDelete_removes_and_frees_email
      ⟨[⟨1, "a", "ae", "h", "active", none⟩, ⟨2, "b", "be", "h", "active", some 3⟩], 3⟩
      2 [1] (fun p => p) "c" "ae" "pw"
      (by decide) (by decide) (by decide) (by decide) (by decide) (by decide)).1,
   (bulkDelete_removes_and_frees_email
      ⟨[⟨1, "a", "ae", "h", "active", none⟩, ⟨2, "b", "be", "h", "active", some 3⟩], 3⟩
      2 [1] (fun p => p) "c" "ae" "pw"
      (by decide) (by decide) (by decide) (by decide) (by decide) (by decide)).2.2.2.2.1,
   (bulkDelete_removes_and_frees_email
      ⟨[⟨1, "a", "ae", "h", "active", none⟩, ⟨2, "b", "be", "h", "active", some 3⟩], 3⟩
      2 [1] (fun p => p) "c" "ae" "pw"
      (by decide) (by decide) (by decide) (by decide) (by decide) (by decide)).2.2.2.2.2.1⟩

/-- C2: the access guard decides in order: no token gives 401
Unauthorized; a token failing verification gives 401; a verified id absent
from the store gives 403; a blocked account gives 403; otherwise the
freshly resolved account is attached.  The lookup is fresh on every call:
an account just blocked through POST /block is rejected on its next
guarded request although its token still verifies and is unexpired. -/
theorem accessGuard_order_and_fresh_lookup (secret : String) (now : Nat) (s : Store) :
    (verifyUser secret now none s = .unauthorized ∧
      guardResponse (verifyUser secret now none s) = some ⟨401, .err "Unauthorized"⟩) ∧
    (∀ t : Token, jwtVerify secret now t = none →
      verifyUser secret now (some t) s = .invalidToken ∧
      guardResponse (verifyUser secret now (some t) s) = some ⟨401, .err "Invalid token"⟩) ∧
    (∀ t uid, jwtVerify secret now t = some uid → findById s uid = none →
      verifyUser secret now (some t) s = .userNotFound ∧
      guardResponse (verifyUser secret now (some t) s) = some ⟨403, .err "User not found"⟩) ∧
    (∀ t uid u, jwtVerify secret now t = some uid → findById s uid = some u →
      u.status = "blocked" →
      verifyUser secret now (some t) s = .accountBlocked ∧
      guardResponse (verifyUser secret now (some t) s)
        = some ⟨403, .err "Your account has been blocked"⟩) ∧
    (∀ t uid u, jwtVerify secret now t = some uid → findById s uid = some u →
      u.status ≠ "blocked" →
      verifyUser secret now (some t) s = .ok u) ∧
    (∀ (actorId : Nat) (userIds : List Nat) (u : Account),
      findById s u.id = some u → u.status ≠ "blocked" →
      actorId ∉ userIds → u.id ∈ userIds →
      jwtVerify secret now (jwtSign secret u.id now) = some u.id ∧
      verifyUser secret now (some (jwtSign secret u.id now)) s = .ok u ∧
      verifyUser secret now (some (jwtSign secret u.id now)) (bulkBlock actorId userIds s).2
        = .accountBlocked) := by
  refine ⟨⟨rfl, rfl⟩, ?_, ?_, ?_, ?_, ?_⟩
  · intro t ht
    have h1 : verifyUser secret now (some t) s = .invalidToken := by
      simp [verifyUser, ht]
    exact ⟨h1, by rw [h1]; rfl⟩
  · intro t uid ht hfind
    have h1 : verifyUser secret now (some t) s = .userNotFound := by
      simp [verifyUser, ht, hfind]
    exact ⟨h1, by rw [h1]; rfl⟩
  · intro t uid u ht hfind hb
    have h1 : verifyUser secret now (some t) s = .accountBlocked := by
      simp [verifyUser, ht, hfind, hb]
    exact ⟨h1, by rw [h1]; rfl⟩
  · intro t uid u ht hfind hnb
    simp [verifyUser, ht, hfind, hnb]
  · intro actorId userIds u hfind hnb hself hmem
    have hver : jwtVerify secret now (jwtSign secret u.id now) = some u.id := by
      simp [jwtVerify, jwtSign]
    have hfb : (bulkBlock actorId userIds s).2.users
        = s.users.map
            (fun v => if userIds.contains v.id then { v with status := "blocked" } else v) := by
      simp [bulkBlock, hself]
    have hfind0 : s.users.find? (fun v => v.id == u.id) = some u := hfind
    have hfind2 : findById (bulkBlock actorId userIds s).2 u.id
        = some { u with status := "blocked" } := by
      unfold findById
      rw [hfb]
      rw [find?_map_id_preserving _
        (fun v => by by_cases hc : v.id ∈ userIds <;> simp [hc]) s.users u.id]
      rw [hfind0]
      simp [hmem]
    refine ⟨hver, by simp [verifyUser, hver, hfind, hnb], ?_⟩
    simp [verifyUser, hver, hfind2]

/-- Witness for C2: the guard rejects a missing token on the concrete
store; with a freshly signed, unexpired token for account 2 the guard
passes, and after actor 1 blocks account 2 the very same token is rejected
with the blocked outcome. -/
theorem accessGuard_order_and_fresh_lookup_witness :
    verifyUser "k" 0 none ⟨[⟨2, "b", "be", "h", "active", none⟩], 3⟩ = .unauthorized ∧
    verifyUser "k" 0 (some (jwtSign "k" 2 0)) ⟨[⟨2, "b", "be", "h", "active", none⟩], 3⟩
      = .ok ⟨2, "b", "be", "h", "active", none⟩ ∧
    verifyUser "k" 0 (some (jwtSign "k" 2 0))
        (bulkBlock 1 [2] ⟨[⟨2, "b", "be", "h", "active", none⟩], 3⟩).2
      = .accountBlocked :=
  ⟨(accessGuard_order_and_fresh_lookup "k" 0 ⟨[⟨2, "b", "be", "h", "active", none⟩], 3⟩).1.1,
   (accessGuard_order_and_fresh_lookup "k" 0
      ⟨[⟨2, "b", "be", "h", "active", none⟩], 3⟩).2.2.2.2.2 1 [2]
      ⟨2, "b", "be", "h", "active", none⟩ (by decide) (by decide) (by decide) (by decide)
     |>.2.1,
   (accessGuard_order_and_fresh_lookup "k" 0
      ⟨[⟨2, "b", "be", "h", "active", none⟩], 3⟩).2.2.2.2.2 1 [2]
      ⟨2, "b", "be", "h", "active", none⟩ (by decide) (by decide) (by decide) (by decide)
     |>.2.2⟩

/-- C4: registering a fresh valid triple and then logging in with the same
email and password succeeds: the login reply carries status 200, a token
that verifies back to the id the registration assigned, and exactly the
public projection (id, name, email, status: the PublicUser type carries no
password field); the stored account afterwards holds the login time in
last_login. -/
theorem register_then_login_roundtrip
    (bhash : String → String) (bcompare : String → String → Bool)
    (secret name email password : String) (s : Store) (now : Nat)
    (hn : name ≠ "") (he : email ≠ "") (hp : password ≠ "")
    (hfresh : ∀ u ∈ s.users, u.email ≠ email)
    (hids : ∀ u ∈ s.users, u.id < s.nextId)
    (hcomp : bcompare password (bhash password) = true) :
    (register bhash name email password s).1 = ⟨201, .msg "User registered successfully"⟩ ∧
    (login bcompare secret now email password (register bhash name email password s).2).1
      = ⟨200, .loginOk (jwtSign secret s.nextId now) ⟨s.nextId, name, email, "active"⟩⟩ ∧
    jwtVerify secret now (jwtSign secret s.nextId now) = some s.nextId ∧
    findById
        (login bcompare secret now email password (register bhash name email password s).2).2
        s.nextId
      = some ⟨s.nextId, name, email, bhash password, "active", some now⟩ := by
  have hanyf : s.users.any (fun u => u.email == email) = false := by
    rw [List.any_eq_false]
    intro u hu
    simp [hfresh u hu]
  have hregeq := register_success bhash name email password s hn he hp hanyf
  have hreg2 : (register bhash name email password s).2
      = ⟨s.users ++ [⟨s.nextId, name, email, bhash password, "active", none⟩],
         s.nextId + 1⟩ := by
    rw [hregeq]
  have hfindmail : findByEmail (register bhash name email password s).2 email
      = some ⟨s.nextId, name, email, bhash password, "active", none⟩ := by
    rw [hreg2]
    unfold findByEmail
    rw [find?_append_of_none _ _ _ (fun u hu => by simp [hfresh u hu])]
    simp
  refine ⟨by rw [hregeq], ?_, by simp [jwtVerify, jwtSign], ?_⟩
  · simp [login, hfindmail, hcomp]
  · have hstore :
        (login bcompare secret now email password (register bhash name email password s).2).2
          = updateLastLogin (register bhash name email password s).2 s.nextId now := by
      simp [login, hfindmail, hcomp]
    rw [hstore, hreg2]
    show (((s.users ++ [(⟨s.nextId, name, email, bhash password, "active", none⟩ : Account)]).map
          (fun u => if u.id == s.nextId then { u with lastLogin := some now } else u)).find?
          (fun u => u.id == s.nextId))
        = some (⟨s.nextId, name, email, bhash password, "active", some now⟩ : Account)
    rw [find?_map_id_preserving _
      (fun v => by by_cases hc : v.id == s.nextId <;> simp [hc]) _ _]
    rw [find?_append_of_none _ _ _
      (fun u hu => by simpa using Nat.ne_of_lt (hids u hu))]
    simp

/-- Witness for C4: on the empty store, register n, e, pw (with the
identity hash oracle and the matching compare oracle), then log in at time
5: status 200, the token verifies to id 1, and the stored account carries
last_login 5. -/
theorem register_then_login_roundtrip_witness :
    (register (fun p => p) "n" "e" "pw" ⟨[], 1⟩).1
      = ⟨201, .msg "User registered successfully"⟩ ∧
    (login (fun p h => p == h) "k" 5 "e" "pw" (register (fun p => p) "n" "e" "pw" ⟨[], 1⟩).2).1
      = ⟨200, .loginOk (jwtSign "k" 1 5) ⟨1, "n", "e", "active"⟩⟩ ∧
    jwtVerify "k" 5 (jwtSign "k" 1 5) = some 1 ∧
    findById
        (login (fun p h => p == h) "k" 5 "e" "pw"
          (register (fun p => p) "n" "e" "pw" ⟨[], 1⟩).2).2 1
      = some ⟨1, "n", "e", "pw", "active", some 5⟩ :=
  register_then_login_roundtrip (fun p => p) (fun p h => p == h) "k" "n" "e" "pw" ⟨[], 1⟩ 5
    (by decide) (by decide) (by decide) (by simp) (by simp) (by simp)

end UsersAPI
